import Mathlib

/-
  Verification development for the riptide_fw_bridge protocol bridge
  (src/RosProtobufBridge.cpp). The packet-dispatch pipeline of
  `RosProtobufBridge::processPacket`, the field-name resolver
  `lookupCommFieldName` and the send path `RosProtobufBridge::sendResponse`
  are embedded shallowly. External collaborators (the protobuf codec, the
  two message handlers, the reflective field catalogue of the generated
  schema) are parameters of an environment record, as the source reaches
  them only through narrow interfaces (ParseFromArray / SerializeToString,
  processMessage, FindFieldByNumber). Effects (logger output, calls to the
  transmit callback, envelopes handed to the send path, handler
  invocations) are collected in an explicit output record.
-/

namespace RosProtobufBridge

/-- Log severity, mirroring RCLCPP_INFO / RCLCPP_WARN / RCLCPP_ERROR. -/
inductive LogLevel where
  | info
  | warn
  | error
deriving DecidableEq

/-- One log line emitted through the node logger, with its severity and the
fully formatted text. -/
structure LogEntry where
  level : LogLevel
  text : String
deriving DecidableEq

/-- Shallow embedding of `titan_pb::comm_msg`: `msgCase` is the oneof case
number returned by `msg_case()` (0 is `MSG_NOT_SET`; a populated field gives
its field tag), `connectVer` the `connect_ver` field (0 when absent), and
`ack` the `ack` token (0 means no acknowledgement requested). -/
structure Envelope where
  msgCase : Nat
  connectVer : Nat
  ack : Nat
deriving DecidableEq

/-- The `MSG_NOT_SET` sentinel of the `msg` oneof; protobuf fixes it at 0. -/
def MSG_NOT_SET : Nat := 0

/-- Identifies which of the two message handlers a `processMessage` call
went to. -/
inductive Handler where
  | topic
  | param
deriving DecidableEq

/-- The environment of a bridge instance: its fixed protocol version, the
tag of the `connect_ver` oneof case, the two handlers (which may claim a
message, decline it, or raise `MsgConversionError`, carried here as the
`what()` string), the protobuf codec, and the reflective field catalogue of
the `comm_msg` descriptor (`none` models a null descriptor). -/
structure Env where
  protocol_version : Nat
  kConnectVer : Nat
  topicHandler : Int → Envelope → Except String Bool
  paramHandler : Int → Envelope → Except String Bool
  encode : Envelope → Option (List Nat)
  decode : List Nat → Option Envelope
  fieldCatalog : Option (List (Nat × String))

/-- Observable effects of one call into the bridge: log lines, invocations
of the transmit callback `txCallback_` (client id and encoded bytes),
envelopes the dispatcher handed to `sendResponse`, and the sequence of
handler `processMessage` invocations. -/
structure Output where
  logs : List LogEntry
  transmits : List (Int × List Nat)
  sends : List (Int × Envelope)
  calls : List Handler
deriving DecidableEq

/-- Text of the decode-failure warning in `processPacket`. -/
def corruptedMsg (clientId : Int) : String :=
  "Corrupted protobuf packet received from client " ++ toString clientId

/-- Text of the connect-accepted info line in `processPacket`. -/
def connectedMsg (clientId : Int) : String :=
  "Client " ++ toString clientId ++ " Connected"

/-- Text of the version-mismatch warning in `processPacket`; it carries the
offered version and the expected protocol version. -/
def versionMismatchMsg (clientId : Int) (offered expected : Nat) : String :=
  "Client " ++ toString clientId ++
    " attepting to connect with invalid protocol version 0x" ++ toString offered ++
    " (expected " ++ toString expected ++ ")"

/-- Text of the warning for an envelope with no populated message. -/
def notPopulatedMsg (clientId : Int) : String :=
  "Client " ++ toString clientId ++ " sent packet without populating a message"

/-- Text of the warning for a populated field no handler claimed. -/
def noHandlerMsg (clientId : Int) (fieldName : String) : String :=
  "Client " ++ toString clientId ++ " published on \x27" ++ fieldName ++
    "\x27, which does not have an associated handler (check that publisher is enabled for target)"

/-- Text of the conversion-error warning when the message case is not set. -/
def convErrNotSetMsg (clientId : Int) (e : String) : String :=
  "Client " ++ toString clientId ++ " published invalid message with topic not set? - " ++ e

/-- Text of the conversion-error warning for a populated field. -/
def convErrFieldMsg (clientId : Int) (fieldName e : String) : String :=
  "Client " ++ toString clientId ++ " published invalid message on \x27" ++
    fieldName ++ "\x27 - " ++ e

/-- Text of the serialization-failure error in `sendResponse`. -/
def serializeFailMsg (clientId : Int) : String :=
  "Failed to serialize message to client " ++ toString clientId

/-- Embedding of the protobuf descriptor lookup `FindFieldByNumber`: find
the declared name of the field with the given tag in the catalogue. -/
def findFieldByNumber (fields : List (Nat × String)) (fieldNum : Nat) : Option String :=
  (fields.find? (fun p => p.1 == fieldNum)).map (fun p => p.2)

/-- Embedding of the static helper `lookupCommFieldName` of
RosProtobufBridge.cpp: if the descriptor exists and declares a field with
this tag, its declared name; otherwise the placeholder string. -/
def lookupCommFieldName (descriptor : Option (List (Nat × String))) (fieldNum : Nat) : String :=
  match descriptor with
  | some fields =>
    match findFieldByNumber fields fieldNum with
    | some name => name
    | none => "Unknown Topic Num " ++ toString fieldNum
  | none => "Unknown Topic Num " ++ toString fieldNum

/-- Result of the classify-and-route section of `processPacket` (the body
of the try block before the final ack step): the `send_ack` flag or a
raised `MsgConversionError`, the log lines emitted on the way, and the
handler invocations made. -/
structure RouteOut where
  result : Except String Bool
  logs : List LogEntry
  calls : List Handler

/-- The classify-and-route section of `processPacket`: the connect case is
checked first against the fixed protocol version; otherwise the topic
handler is tried, then the parameter handler, and if neither claims the
message a warning distinguishes an empty oneof from an unhandled field. -/
def route (env : Env) (clientId : Int) (msg : Envelope) : RouteOut :=
  if msg.msgCase = env.kConnectVer then
    if msg.connectVer = env.protocol_version then
      ⟨.ok true, [⟨.info, connectedMsg clientId⟩], []⟩
    else
      ⟨.ok false, [⟨.warn, versionMismatchMsg clientId msg.connectVer env.protocol_version⟩], []⟩
  else
    match env.topicHandler clientId msg with
    | .error e => ⟨.error e, [], [.topic]⟩
    | .ok true => ⟨.ok true, [], [.topic]⟩
    | .ok false =>
      match env.paramHandler clientId msg with
      | .error e => ⟨.error e, [], [.topic, .param]⟩
      | .ok true => ⟨.ok false, [], [.topic, .param]⟩
      | .ok false =>
        if msg.msgCase = MSG_NOT_SET then
          ⟨.ok false, [⟨.warn, notPopulatedMsg clientId⟩], [.topic, .param]⟩
        else
          ⟨.ok false,
            [⟨.warn, noHandlerMsg clientId (lookupCommFieldName env.fieldCatalog msg.msgCase)⟩],
            [.topic, .param]⟩

/-- The acknowledgement envelope built in `processPacket`: a fresh
`comm_msg` with `set_ack(msg.ack())` and `clear_msg()`, so only the ack
token is set. -/
def mkAck (ackToken : Nat) : Envelope :=
  ⟨MSG_NOT_SET, 0, ackToken⟩

/-- Embedding of `RosProtobufBridge::sendResponse`: serialize the envelope;
on failure log an error and transmit nothing, on success invoke the
transmit callback once with the encoded bytes. -/
def sendResponse (env : Env) (clientId : Int) (msg : Envelope) : Output :=
  match env.encode msg with
  | none => ⟨[⟨.error, serializeFailMsg clientId⟩], [], [], []⟩
  | some data => ⟨[], [(clientId, data)], [], []⟩

/-- The part of `processPacket` after a successful decode: run the
classify-and-route section; a `MsgConversionError` is caught at the packet
boundary and logged, skipping the ack step; otherwise, when `send_ack` is
set and the inbound ack token is non-zero, an acknowledgement envelope is
sent back through `sendResponse`. -/
def processDecoded (env : Env) (clientId : Int) (msg : Envelope) : Output :=
  let r := route env clientId msg
  match r.result with
  | .error e =>
    if msg.msgCase = MSG_NOT_SET then
      ⟨r.logs ++ [⟨.warn, convErrNotSetMsg clientId e⟩], [], [], r.calls⟩
    else
      ⟨r.logs ++
        [⟨.warn, convErrFieldMsg clientId (lookupCommFieldName env.fieldCatalog msg.msgCase) e⟩],
        [], [], r.calls⟩
  | .ok sendAck =>
    if sendAck ∧ msg.ack ≠ 0 then
      let ackResp := mkAck msg.ack
      let so := sendResponse env clientId ackResp
      ⟨r.logs ++ so.logs, so.transmits, [(clientId, ackResp)], r.calls⟩
    else
      ⟨r.logs, [], [], r.calls⟩

/-- `INT_MAX` of the target platform, the size bound checked before
`ParseFromArray`. -/
def INT_MAX : Nat := 2 ^ 31 - 1

/-- Embedding of `RosProtobufBridge::processPacket`: reject oversized or
unparseable buffers with a warning, then process the decoded envelope. -/
def processPacket (env : Env) (clientId : Int) (data : List Nat) : Output :=
  if data.length > INT_MAX then
    ⟨[⟨.warn, corruptedMsg clientId⟩], [], [], []⟩
  else
    match env.decode data with
    | none => ⟨[⟨.warn, corruptedMsg clientId⟩], [], [], []⟩
    | some msg => processDecoded env clientId msg

/-- A concrete codec for witnesses: a buffer is exactly the triple of the
three envelope fields. -/
def testDecode (data : List Nat) : Option Envelope :=
  match data with
  | [tag, ver, tok] => some ⟨tag, ver, tok⟩
  | _ => none

/-- A concrete environment for witnesses: protocol version 7, connect tag 1,
both handlers decline every message, the triple codec, and a catalogue
declaring field 2 as "odometry". -/
def testEnv : Env where
  protocol_version := 7
  kConnectVer := 1
  topicHandler := fun _ _ => .ok false
  paramHandler := fun _ _ => .ok false
  encode := fun m => some [m.msgCase, m.connectVer, m.ack]
  decode := testDecode
  fieldCatalog := some [(2, "odometry")]

/-- Variant of `testEnv` whose topic handler claims every message. -/
def topicClaimEnv : Env :=
  { testEnv with topicHandler := fun _ _ => .ok true }

/-- Variant of `testEnv` whose parameter handler claims every message. -/
def paramClaimEnv : Env :=
  { testEnv with paramHandler := fun _ _ => .ok true }

/-- Variant of `testEnv` whose topic handler raises a conversion error. -/
def throwEnv : Env :=
  { testEnv with topicHandler := fun _ _ => .error "bad payload" }

/-- Variant of `testEnv` whose encoder always fails. -/
def encodeFailEnv : Env :=
  { testEnv with encode := fun _ => none }

/-- Claim C7: `lookupCommFieldName` is a pure total function of its tag:
for a tag declared in the catalogue it returns that field's declared name,
and for an undeclared tag (or a null descriptor) it returns
"Unknown Topic Num " followed by the tag's decimal value. -/
theorem lookupCommFieldName_total (fields : List (Nat × String)) (fieldNum : Nat) :
    (∀ name, findFieldByNumber fields fieldNum = some name →
      lookupCommFieldName (some fields) fieldNum = name) ∧
    (findFieldByNumber fields fieldNum = none →
      lookupCommFieldName (some fields) fieldNum = "Unknown Topic Num " ++ toString fieldNum) ∧
    lookupCommFieldName none fieldNum = "Unknown Topic Num " ++ toString fieldNum := by
  refine ⟨fun name h => ?_, fun h => ?_, rfl⟩ <;>
    simp only [lookupCommFieldName, h]

/-- Witness for C7: in the test catalogue, tag 2 resolves to its declared
name and the NOT_SET sentinel 0 resolves to the placeholder. -/
theorem lookupCommFieldName_total_witness :
    lookupCommFieldName (some [(2, "odometry")]) 2 = "odometry" ∧
    lookupCommFieldName (some [(2, "odometry")]) 0 = "Unknown Topic Num 0" :=
  ⟨(lookupCommFieldName_total [(2, "odometry")] 2).1 "odometry" rfl,
   (lookupCommFieldName_total [(2, "odometry")] 0).2.1 rfl⟩

/-- Claim C8: `sendResponse` never partially sends: if encoding fails it
logs an error and invokes the transmit callback not at all, and if encoding
succeeds the callback is invoked exactly once with the client id and the
encoded bytes. -/
theorem sendResponse_encode_contract (env : Env) (clientId : Int) (msg : Envelope) :
    (env.encode msg = none →
      sendResponse env clientId msg = ⟨[⟨.error, serializeFailMsg clientId⟩], [], [], []⟩) ∧
    (∀ bs, env.encode msg = some bs →
      sendResponse env clientId msg = ⟨[], [(clientId, bs)], [], []⟩) := by
  refine ⟨fun h => ?_, fun bs h => ?_⟩ <;>
    simp only [sendResponse, h]

/-- Witness for C8: the failing encoder yields only the error log, and the
test encoder yields exactly one transmission. -/
theorem sendResponse_encode_contract_witness :
    sendResponse encodeFailEnv 4 (mkAck 9) = ⟨[⟨.error, serializeFailMsg 4⟩], [], [], []⟩ ∧
    sendResponse testEnv 4 (mkAck 9) = ⟨[], [(4, [0, 0, 9])], [], []⟩ :=
  ⟨(sendResponse_encode_contract encodeFailEnv 4 (mkAck 9)).1 rfl,
   (sendResponse_encode_contract testEnv 4 (mkAck 9)).2 [0, 0, 9] rfl⟩

/-- When the size check passes and the buffer decodes, `processPacket` is
the post-decode pipeline on the decoded envelope. -/
theorem processPacket_eq_processDecoded (env : Env) (clientId : Int) (data : List Nat)
    (msg : Envelope) (hlen : data.length ≤ INT_MAX) (hdec : env.decode data = some msg) :
    processPacket env clientId data = processDecoded env clientId msg := by
  rw [processPacket, if_neg (not_lt.mpr hlen), hdec]

/-- Claim C2: a buffer that is oversized or does not parse as an envelope
makes `processPacket` log exactly one warning naming the client id, invoke
no handler, transmit nothing, and return normally. -/
theorem corrupted_packet_drop (env : Env) (clientId : Int) (data : List Nat)
    (h : data.length > INT_MAX ∨ env.decode data = none) :
    processPacket env clientId data =
      ⟨[⟨.warn, corruptedMsg clientId⟩], [], [], []⟩ := by
  rcases h with h | h
  · rw [processPacket, if_pos h]
  · rw [processPacket]
    split
    · rfl
    · rw [h]

/-- Witness for C2: the empty buffer does not decode under the test codec
and is dropped with the corrupted-packet warning. -/
theorem corrupted_packet_drop_witness :
    processPacket testEnv 5 [] = ⟨[⟨.warn, corruptedMsg 5⟩], [], [], []⟩ :=
  corrupted_packet_drop testEnv 5 [] (Or.inr rfl)

/-- Claim C1: for a decoded CONNECT envelope whose offered version matches
the fixed protocol version, an acknowledgement envelope is handed to the
send path iff the inbound ack token is non-zero; it carries exactly that
token with no payload field set; and when the ack encodes, the transmit
callback receives exactly it. -/
theorem connect_match_ack (env : Env) (clientId : Int) (data : List Nat) (msg : Envelope)
    (hlen : data.length ≤ INT_MAX) (hdec : env.decode data = some msg)
    (hcase : msg.msgCase = env.kConnectVer) (hver : msg.connectVer = env.protocol_version) :
    ((processPacket env clientId data).sends =
        [(clientId, Envelope.mk MSG_NOT_SET 0 msg.ack)] ↔ msg.ack ≠ 0) ∧
    (msg.ack = 0 →
      (processPacket env clientId data).sends = [] ∧
      (processPacket env clientId data).transmits = []) ∧
    (∀ bs, msg.ack ≠ 0 → env.encode (mkAck msg.ack) = some bs →
      (processPacket env clientId data).transmits = [(clientId, bs)]) := by
  rw [processPacket_eq_processDecoded env clientId data msg hlen hdec]
  have hroute : route env clientId msg = ⟨.ok true, [⟨.info, connectedMsg clientId⟩], []⟩ := by
    rw [route, if_pos hcase, if_pos hver]
  by_cases hack : msg.ack = 0
  · simp [processDecoded, hroute, hack]
  · refine ⟨by simp [processDecoded, hroute, hack, mkAck], fun h => absurd h hack,
      fun bs _ hbs => ?_⟩
    simp [processDecoded, hroute, hack, sendResponse, hbs]

/-- Witness for C1: with protocol version 7, the packet CONNECT(7) with ack
token 42 produces exactly one ack send carrying 42 and no payload, and the
encoded ack is transmitted. -/
theorem connect_match_ack_witness :
    (processPacket testEnv 3 [1, 7, 42]).sends =
      [(3, Envelope.mk MSG_NOT_SET 0 42)] ∧
    (processPacket testEnv 3 [1, 7, 42]).transmits = [(3, [0, 0, 42])] := by
  have h := connect_match_ack testEnv 3 [1, 7, 42] ⟨1, 7, 42⟩ (by decide) rfl rfl rfl
  exact ⟨h.1.mpr (by decide), h.2.2 [0, 0, 42] (by decide) rfl⟩

/-- Claim C4: for a decoded CONNECT envelope whose offered version differs
from the fixed protocol version, `processPacket` sends no acknowledgement
regardless of the ack token, invokes neither handler, and logs exactly the
version-mismatch warning carrying both version values. -/
theorem connect_mismatch_no_ack (env : Env) (clientId : Int) (data : List Nat) (msg : Envelope)
    (hlen : data.length ≤ INT_MAX) (hdec : env.decode data = some msg)
    (hcase : msg.msgCase = env.kConnectVer) (hver : msg.connectVer ≠ env.protocol_version) :
    processPacket env clientId data =
      ⟨[⟨.warn, versionMismatchMsg clientId msg.connectVer env.protocol_version⟩],
        [], [], []⟩ := by
  rw [processPacket_eq_processDecoded env clientId data msg hlen hdec]
  have hroute : route env clientId msg =
      ⟨.ok false, [⟨.warn, versionMismatchMsg clientId msg.connectVer env.protocol_version⟩],
        []⟩ := by
    rw [route, if_pos hcase, if_neg hver]
  simp [processDecoded, hroute]

/-- Witness for C4: CONNECT offering version 3 against protocol version 7,
with a non-zero ack token, yields only the mismatch warning. -/
theorem connect_mismatch_no_ack_witness :
    processPacket testEnv 3 [1, 3, 42] =
      ⟨[⟨.warn, versionMismatchMsg 3 3 7⟩], [], [], []⟩ :=
  connect_mismatch_no_ack testEnv 3 [1, 3, 42] ⟨1, 3, 42⟩ (by decide) rfl rfl (by decide)

/-- Counterexample to claim C3 as stated: on a decoded envelope with the
NOT_SET message case, `processPacket` does invoke handlers — the topic and
parameter handlers are tried before the unpopulated-message warning. -/
theorem notset_counterexample :
    (processPacket testEnv 0 [0, 0, 5]).calls ≠ [] := by decide

/-- Claim C3 amended: for a decoded envelope with the NOT_SET message case
(given the connect tag differs from the sentinel), `processPacket` tries
the topic handler and then the parameter handler; when neither claims it,
it logs the unpopulated-message warning and transmits no acknowledgement. -/
theorem notset_unclaimed_warns (env : Env) (clientId : Int) (data : List Nat) (msg : Envelope)
    (hlen : data.length ≤ INT_MAX) (hdec : env.decode data = some msg)
    (hcase : msg.msgCase = MSG_NOT_SET) (hconn : env.kConnectVer ≠ MSG_NOT_SET)
    (htop : env.topicHandler clientId msg = .ok false)
    (hpar : env.paramHandler clientId msg = .ok false) :
    processPacket env clientId data =
      ⟨[⟨.warn, notPopulatedMsg clientId⟩], [], [], [.topic, .param]⟩ := by
  rw [processPacket_eq_processDecoded env clientId data msg hlen hdec]
  have hne : msg.msgCase ≠ env.kConnectVer := by
    rw [hcase]; exact fun h => hconn h.symm
  have hroute : route env clientId msg =
      ⟨.ok false, [⟨.warn, notPopulatedMsg clientId⟩], [.topic, .param]⟩ := by
    rw [route, if_neg hne, htop, hpar, if_pos hcase]
  simp [processDecoded, hroute]

/-- Witness for amended C3: an envelope with nothing populated and ack 5 is
tried by both declining handlers and answered only with the warning. -/
theorem notset_unclaimed_warns_witness :
    processPacket testEnv 0 [0, 0, 5] =
      ⟨[⟨.warn, notPopulatedMsg 0⟩], [], [], [.topic, .param]⟩ :=
  notset_unclaimed_warns testEnv 0 [0, 0, 5] ⟨0, 0, 5⟩ (by decide) rfl rfl
    (by decide) rfl rfl

/-- Claim C5: for a decoded non-CONNECT envelope, if the topic handler
claims it then an ack envelope goes to the send path iff the inbound ack
token is non-zero, and if the parameter handler claims it then the
dispatcher itself sends and transmits nothing. -/
theorem handler_ack_policy (env : Env) (clientId : Int) (data : List Nat) (msg : Envelope)
    (hlen : data.length ≤ INT_MAX) (hdec : env.decode data = some msg)
    (hcase : msg.msgCase ≠ env.kConnectVer) :
    (env.topicHandler clientId msg = .ok true →
      (((processPacket env clientId data).sends ≠ []) ↔ msg.ack ≠ 0)) ∧
    (env.topicHandler clientId msg = .ok false →
      env.paramHandler clientId msg = .ok true →
      (processPacket env clientId data).sends = [] ∧
      (processPacket env clientId data).transmits = []) := by
  rw [processPacket_eq_processDecoded env clientId data msg hlen hdec]
  constructor
  · intro htop
    have hroute : route env clientId msg = ⟨.ok true, [], [.topic]⟩ := by
      rw [route, if_neg hcase, htop]
    by_cases hack : msg.ack = 0
    · simp [processDecoded, hroute, hack]
    · simp [processDecoded, hroute, hack]
  · intro htop hpar
    have hroute : route env clientId msg = ⟨.ok false, [], [.topic, .param]⟩ := by
      rw [route, if_neg hcase, htop, hpar]
    simp [processDecoded, hroute]

/-- Witness for C5: with the claiming topic handler and ack token 9 the
send path receives an ack; with the claiming parameter handler the
dispatcher sends nothing itself. -/
theorem handler_ack_policy_witness :
    (processPacket topicClaimEnv 0 [2, 0, 9]).sends ≠ [] ∧
    (processPacket paramClaimEnv 0 [2, 0, 9]).sends = [] := by
  have h1 := handler_ack_policy topicClaimEnv 0 [2, 0, 9] ⟨2, 0, 9⟩ (by decide) rfl (by decide)
  have h2 := handler_ack_policy paramClaimEnv 0 [2, 0, 9] ⟨2, 0, 9⟩ (by decide) rfl (by decide)
  exact ⟨(h1.1 rfl).mpr (by decide), (h2.2 rfl rfl).1⟩

/-- Claim C6: for a decoded non-CONNECT envelope, the topic handler is
always invoked first, the parameter handler is invoked iff the topic
handler returned false, and no further handlers exist, so at most one
handler claims any packet. -/
theorem handler_priority (env : Env) (clientId : Int) (data : List Nat) (msg : Envelope)
    (hlen : data.length ≤ INT_MAX) (hdec : env.decode data = some msg)
    (hcase : msg.msgCase ≠ env.kConnectVer) :
    (processPacket env clientId data).calls.head? = some Handler.topic ∧
    ((Handler.param ∈ (processPacket env clientId data).calls) ↔
      env.topicHandler clientId msg = .ok false) ∧
    ((processPacket env clientId data).calls = [Handler.topic] ∨
      (processPacket env clientId data).calls = [Handler.topic, Handler.param]) := by
  rw [processPacket_eq_processDecoded env clientId data msg hlen hdec]
  cases htop : env.topicHandler clientId msg with
  | error e =>
    have hroute : route env clientId msg = ⟨.error e, [], [.topic]⟩ := by
      rw [route, if_neg hcase, htop]
    by_cases hns : msg.msgCase = MSG_NOT_SET
    · simp [processDecoded, hroute, hns]
    · simp [processDecoded, hroute, hns]
  | ok b =>
    cases b with
    | true =>
      have hroute : route env clientId msg = ⟨.ok true, [], [.topic]⟩ := by
        rw [route, if_neg hcase, htop]
      by_cases hack : msg.ack = 0
      · simp [processDecoded, hroute, hack]
      · simp [processDecoded, hroute, hack]
    | false =>
      cases hpar : env.paramHandler clientId msg with
      | error e =>
        have hroute : route env clientId msg = ⟨.error e, [], [.topic, .param]⟩ := by
          rw [route, if_neg hcase, htop, hpar]
        by_cases hns : msg.msgCase = MSG_NOT_SET
        · simp [processDecoded, hroute, hns, htop]
        · simp [processDecoded, hroute, hns, htop]
      | ok b2 =>
        cases b2 with
        | true =>
          have hroute : route env clientId msg = ⟨.ok false, [], [.topic, .param]⟩ := by
            rw [route, if_neg hcase, htop, hpar]
          simp [processDecoded, hroute, htop]
        | false =>
          by_cases hns : msg.msgCase = MSG_NOT_SET
          · have hroute : route env clientId msg =
                ⟨.ok false, [⟨.warn, notPopulatedMsg clientId⟩], [.topic, .param]⟩ := by
              rw [route, if_neg hcase, htop, hpar, if_pos hns]
            simp [processDecoded, hroute, htop]
          · have hroute : route env clientId msg =
                ⟨.ok false,
                  [⟨.warn,
                    noHandlerMsg clientId (lookupCommFieldName env.fieldCatalog msg.msgCase)⟩],
                  [.topic, .param]⟩ := by
              rw [route, if_neg hcase, htop, hpar, if_neg hns]
            simp [processDecoded, hroute, htop]

/-- Witness for C6: under the declining handlers, field 2 with ack 0 gives
topic first and then param; under the claiming topic handler, only topic. -/
theorem handler_priority_witness :
    (processPacket testEnv 0 [2, 0, 0]).calls.head? = some Handler.topic ∧
    (processPacket topicClaimEnv 0 [2, 0, 0]).calls = [Handler.topic] := by
  have h1 := handler_priority testEnv 0 [2, 0, 0] ⟨2, 0, 0⟩ (by decide) rfl (by decide)
  have h2 := handler_priority topicClaimEnv 0 [2, 0, 0] ⟨2, 0, 0⟩ (by decide) rfl (by decide)
  refine ⟨h1.1, ?_⟩
  rcases h2.2.2 with h | h
  · exact h
  · exfalso
    have := h2.2.1.mp (by rw [h]; decide)
    simp [topicClaimEnv, testEnv] at this

/-- Claim C10: when classification or routing raises a conversion error,
`processPacket` catches it at the packet boundary: it logs exactly one
warning that distinguishes the NOT_SET case from a populated field case,
hands nothing to the send path, transmits nothing, and returns normally. -/
theorem conversion_error_caught (env : Env) (clientId : Int) (data : List Nat) (msg : Envelope)
    (hlen : data.length ≤ INT_MAX) (hdec : env.decode data = some msg) (e : String)
    (herr : (route env clientId msg).result = Except.error e) :
    (processPacket env clientId data).logs =
      [⟨.warn,
        if msg.msgCase = MSG_NOT_SET then convErrNotSetMsg clientId e
        else convErrFieldMsg clientId (lookupCommFieldName env.fieldCatalog msg.msgCase) e⟩] ∧
    (processPacket env clientId data).transmits = [] ∧
    (processPacket env clientId data).sends = [] := by
  rw [processPacket_eq_processDecoded env clientId data msg hlen hdec]
  by_cases hconn : msg.msgCase = env.kConnectVer
  · rw [route, if_pos hconn] at herr
    split at herr <;> simp at herr
  · cases htop : env.topicHandler clientId msg with
    | error e2 =>
      have he : e2 = e := by
        rw [route, if_neg hconn, htop] at herr
        simpa using herr
      subst he
      have hroute : route env clientId msg = ⟨.error e2, [], [.topic]⟩ := by
        rw [route, if_neg hconn, htop]
      by_cases hns : msg.msgCase = MSG_NOT_SET
      · simp [processDecoded, hroute, hns]
      · simp [processDecoded, hroute, hns]
    | ok b =>
      cases b with
      | true =>
        rw [route, if_neg hconn, htop] at herr
        simp at herr
      | false =>
        cases hpar : env.paramHandler clientId msg with
        | error e2 =>
          have he : e2 = e := by
            rw [route, if_neg hconn, htop, hpar] at herr
            simpa using herr
          subst he
          have hroute : route env clientId msg = ⟨.error e2, [], [.topic, .param]⟩ := by
            rw [route, if_neg hconn, htop, hpar]
          by_cases hns : msg.msgCase = MSG_NOT_SET
          · simp [processDecoded, hroute, hns]
          · simp [processDecoded, hroute, hns]
        | ok b2 =>
          cases b2 with
          | true =>
            rw [route, if_neg hconn, htop, hpar] at herr
            simp at herr
          | false =>
            have hres : (route env clientId msg).result = Except.ok false := by
              simp only [route, if_neg hconn, htop, hpar]
              split <;> rfl
            rw [hres] at herr
            simp at herr

/-- Witness for C10: the throwing topic handler on field 2 yields exactly
the populated-field conversion warning and no sends or transmissions. -/
theorem conversion_error_caught_witness :
    (processPacket throwEnv 0 [2, 0, 5]).logs =
      [⟨.warn, convErrFieldMsg 0 "odometry" "bad payload"⟩] ∧
    (processPacket throwEnv 0 [2, 0, 5]).transmits = [] ∧
    (processPacket throwEnv 0 [2, 0, 5]).sends = [] := by
  have h := conversion_error_caught throwEnv 0 [2, 0, 5] ⟨2, 0, 5⟩ (by decide) rfl
    "bad payload" rfl
  exact ⟨by rw [h.1]; decide, h.2.1, h.2.2⟩

end RosProtobufBridge
